import Mathlib

/-!
Verification of the PropData Estimator valuation engine (src/app.py).

The Python source is shallowly embedded: dictionaries become association
lists, Python numbers become `ℚ`, the current date (obtained from
`datetime.date.today()` in the source) becomes an explicit parameter, and
the random jitter drawn by `np.random.uniform(0.97, 1.03)` becomes an
explicit `variance` argument.  All functions are translated directly from
`src/app.py`.
-/

namespace PropData

/-- Property type: the UI offers exactly "Residential" and "Commercial". -/
inductive PropType where
  | Residential
  | Commercial
deriving DecidableEq

open PropType

/-- `MARKET_CLUSTERS` from src/app.py lines 30-53: cluster label to
(location, base rate) table. -/
def MARKET_CLUSTERS : List (String × List (String × ℚ)) :=
  [ ("Elite / Premium",
      [ ("DHA Phase 8", 190000), ("DHA Phase 6", 165000), ("DHA Phase 5", 160000),
        ("DHA Phase 2", 145000), ("Clifton Block 2", 170000), ("Clifton Block 5", 165000),
        ("KDA Scheme 1", 150000), ("Navy Housing (Karsaz)", 155000), ("Askari 4", 125000),
        ("Askari 5", 120000), ("PECHS Block 2", 130000), ("PECHS Block 6", 140000) ]),
    ("Upper Mid-Range",
      [ ("Bahadurabad", 110000), ("Mohammad Ali Society", 115000), ("Al-Hilal Society", 105000),
        ("Gulshan Block 13D", 95000), ("Gulshan Block 10", 90000),
        ("North Nazimabad (Hyderi)", 100000), ("North Nazimabad Block H", 95000),
        ("Garden West", 95000), ("Federal B Area", 90000) ]),
    ("Mid-Range",
      [ ("Gulistan-e-Jauhar Blk 1", 80000), ("Gulistan-e-Jauhar Blk 15", 75000),
        ("Scheme 33 (Saadi Town)", 65000), ("Scheme 33 (Metrovil)", 60000),
        ("Bahria Town (Precinct 1)", 110000), ("Bahria Town (Precinct 10)", 85000),
        ("Malir Cantt", 95000), ("Bufferzone", 70000), ("North Karachi", 60000) ]),
    ("Affordable",
      [ ("New Karachi", 45000), ("Surjani Town", 35000), ("Korangi Crossing", 55000),
        ("Korangi Industrial", 60000), ("Orangi Town", 30000), ("Lyari", 35000),
        ("Taiser Town", 25000), ("Baldia Town", 30000) ]) ]

/-- `BASE_RATES` from src/app.py line 54: the flattened location → rate
dictionary (all location keys are distinct, so the comprehension order is
irrelevant). -/
def BASE_RATES : List (String × ℚ) := (MARKET_CLUSTERS.map Prod.snd).flatten

/-- `MarketConfig.QUALITY_MULTIPLIERS` from src/app.py lines 76-78. -/
def QUALITY_MULTIPLIERS : List (String × ℚ) :=
  [ ("A+ (Luxury)", 1.60), ("A (Premium)", 1.30), ("B (Standard)", 1.00), ("C (Basic)", 0.85) ]

/-- `MarketConfig.ROAD_WIDTH_FACTORS` from src/app.py lines 79-84. -/
def ROAD_WIDTH_FACTORS : List (String × ℚ) :=
  [ ("Main Boulevard (100ft+)", 1.15), ("Wide Road (60-80ft)", 1.08),
    ("Standard Street (30-40ft)", 1.00), ("Narrow Lane (<30ft)", 0.95) ]

/-- `MarketConfig.COMMERCIAL_MULTIPLIER` from src/app.py line 85. -/
def COMMERCIAL_MULTIPLIER : ℚ := 1.60

/-- `MarketConfig.ROOM_PREMIUM` from src/app.py line 86. -/
def ROOM_PREMIUM : ℚ := 1200000

/-- The `params` dict assembled at src/app.py lines 298-303 (the UI
guarantees `area`, `bedrooms` are non-negative integers). -/
structure ValuationRequest where
  location : String
  area : ℕ
  type : PropType
  road_width : String
  year_built : ℤ
  bedrooms : ℕ
  quality : String
  is_corner : Bool
  is_park : Bool
  is_west_open : Bool
deriving DecidableEq

/-- The `breakdown` dict built at src/app.py lines 175-178.  The Python key
"structure" is a Lean keyword, hence the field name `structure_value`. -/
structure Breakdown where
  base_rate : ℚ
  land : ℚ
  structure_value : ℚ
  features : ℚ
  depreciation_factor : ℚ
  pre_variance : ℚ
deriving DecidableEq

/-- The dict returned by `calculate_estimate` (src/app.py line 179). -/
structure EstimateResult where
  price : ℚ
  breakdown : Breakdown
deriving DecidableEq

/-- The clamped age `max(0, current - construction_year)` from
src/app.py line 143. -/
def ageUsed (current construction_year : ℤ) : ℤ :=
  max 0 (current - construction_year)

/-- `ValuationEngine.calculate_depreciation_factor` from src/app.py
lines 141-148, with the current year (`datetime.date.today().year`) as an
explicit parameter. -/
def calculate_depreciation_factor (current construction_year : ℤ) : ℚ :=
  let age := ageUsed current construction_year
  if age ≤ 0 then 1.10
  else if age ≤ 5 then 1.00
  else if age ≤ 10 then 0.85
  else if age ≤ 20 then 0.70
  else 0.55

/-- `ValuationEngine.calculate_estimate` from src/app.py lines 150-179.
`current` is the year of `datetime.date.today()` and `variance` is the
value drawn by `np.random.uniform(0.97, 1.03)` at line 172. -/
def calculate_estimate (current : ℤ) (params : ValuationRequest) (variance : ℚ) :
    EstimateResult :=
  let base := (List.lookup params.location BASE_RATES).getD 50000
  let road_f := (List.lookup params.road_width ROAD_WIDTH_FACTORS).getD 1.0
  let land_value := base * road_f * (params.area : ℚ)
  let structure_dep : ℚ × ℚ :=
    if params.type = Residential then
      let raw_struct := (params.bedrooms : ℚ) * ROOM_PREMIUM
      let quality_mult := (List.lookup params.quality QUALITY_MULTIPLIERS).getD 1.0
      let depreciation := calculate_depreciation_factor current params.year_built
      (raw_struct * quality_mult * depreciation, depreciation)
    else (0.0, 1.0)
  let structure_value := structure_dep.1
  let depreciation := structure_dep.2
  let features :=
    (if params.is_corner then land_value * 0.15 else 0) +
    (if params.is_park then land_value * 0.10 else 0) +
    (if params.is_west_open then land_value * 0.05 else 0)
  let subtotal := land_value + structure_value + features
  let total := if params.type = Commercial then subtotal * COMMERCIAL_MULTIPLIER else subtotal
  let final := total * variance
  { price := final,
    breakdown :=
      { base_rate := base, land := land_value, structure_value := structure_value,
        features := features, depreciation_factor := depreciation, pre_variance := total } }

/-- `format_pk` from src/app.py lines 194-197: crore and lakh magnitudes are
plain divisions; the third component models the Python f-string
`PKR {amount:,.0f}` (round-half-even to an integer, thousands separated by
commas). -/
def roundHalfEven (q : ℚ) : ℤ :=
  let f := ⌊q⌋
  let r := q - f
  if r < 1/2 then f
  else if 1/2 < r then f + 1
  else if f % 2 = 0 then f else f + 1

/-- Group a reversed digit list into blocks of three (least-significant
block first), for thousands separators. -/
def chunk3 : List Char → List (List Char)
  | a :: b :: c :: d :: rest => [a, b, c] :: chunk3 (d :: rest)
  | l => [l]

/-- Decimal rendering of a natural number with commas every three digits. -/
def commaSep (n : ℕ) : String :=
  let blocks := (chunk3 (toString n).toList.reverse).map (fun g => String.mk g.reverse)
  String.intercalate "," blocks.reverse

/-- Render an integer the way Python's `format(x, ",.0f")` renders the
rounded amount. -/
def commaSepInt (z : ℤ) : String :=
  (if z < 0 then "-" else "") ++ commaSep z.natAbs

/-- `format_pk` from src/app.py lines 194-197. -/
def format_pk (amount : ℚ) : ℚ × ℚ × String :=
  let crore := amount / 10000000
  let lakh := amount / 100000
  (crore, lakh, "PKR " ++ commaSepInt (roundHalfEven amount))

/-- A calendar date (year, month 1-12, day). -/
structure SimpleDate where
  year : ℕ
  month : ℕ
  day : ℕ
deriving DecidableEq

/-- Gregorian leap-year rule. -/
def isLeapYear (y : ℕ) : Bool :=
  (y % 4 == 0 && !(y % 100 == 0)) || (y % 400 == 0)

/-- Number of days of month `m` in year `y`. -/
def daysInMonth (y m : ℕ) : ℕ :=
  if m = 2 then (if isLeapYear y then 29 else 28)
  else if m = 4 ∨ m = 6 ∨ m = 9 ∨ m = 11 then 30
  else 31

/-- Months since year 0 for the month containing a date. -/
def monthIndex (d : SimpleDate) : ℕ := d.year * 12 + (d.month - 1)

/-- The last day of the month with absolute index `k`. -/
def monthEndOfIndex (k : ℕ) : SimpleDate :=
  { year := k / 12, month := k % 12 + 1, day := daysInMonth (k / 12) (k % 12 + 1) }

/-- Calendar (lexicographic) strict order on dates. -/
def dateLt (a b : SimpleDate) : Prop :=
  a.year < b.year ∨
    (a.year = b.year ∧ (a.month < b.month ∨ (a.month = b.month ∧ a.day < b.day)))

/-- The dates produced by `pd.date_range(start=today, periods=months, freq="ME")`
at src/app.py line 191: month-end dates, the first being the end of the month
containing `today` (the earliest month end on or after `today`), then the ends
of the following months. -/
def forecastDates (today : SimpleDate) (months : ℕ) : List SimpleDate :=
  (List.range months).map (fun i => monthEndOfIndex (monthIndex today + i))

/-- The `i`-th entry of `np.linspace(start, stop, num)`. -/
def linTerm (start stop : ℚ) (num i : ℕ) : ℚ :=
  if num ≤ 1 then start else start + (i : ℚ) * (stop - start) / ((num : ℚ) - 1)

/-- `np.linspace(start, stop, num)` as used at src/app.py line 188: `num`
evenly spaced samples from `start` to `stop`, endpoints included. -/
def linspace (start stop : ℚ) (num : ℕ) : List ℚ :=
  (List.range num).map (linTerm start stop num)

/-- The standard-deviation argument passed to `np.random.normal` at
src/app.py line 189. -/
def forecastNoiseStd (start_price : ℚ) : ℚ := start_price * 0.015

/-- `ValuationEngine.generate_forecast` from src/app.py lines 184-192, with
`datetime.date.today()` as an explicit parameter and the vector drawn by
`np.random.normal(0, start_price * 0.015, months)` as an explicit `noise`
sequence. -/
def generate_forecast (today : SimpleDate) (start_price : ℚ) (months : ℕ)
    (noise : ℕ → ℚ) : List (SimpleDate × ℚ) :=
  let growth := linspace start_price (start_price * 1.12) months
  let values := List.zipWith (· + ·) growth ((List.range months).map noise)
  (forecastDates today months).zip values

/-- The request of the spec's worked example (section 8): DHA Phase 8, 240
sq yd, standard street, 3 bedrooms, standard quality, built in the current
year, no feature flags. -/
def exampleResidential (current : ℤ) : ValuationRequest :=
  { location := "DHA Phase 8", area := 240, type := PropType.Residential,
    road_width := "Standard Street (30-40ft)", year_built := current, bedrooms := 3,
    quality := "B (Standard)", is_corner := false, is_park := false,
    is_west_open := false }

/-- A request whose location, road width and quality tier are all absent from
the tables (used to exercise the default paths). -/
def unknownRequest : ValuationRequest :=
  { location := "Atlantis Underwater City", area := 100, type := PropType.Residential,
    road_width := "Dirt Track", year_built := 2020, bedrooms := 2,
    quality := "Z (Mystery)", is_corner := false, is_park := false,
    is_west_open := false }

/-- The worked-example request with all three feature flags enabled. -/
def allFlagsRequest : ValuationRequest :=
  { location := "DHA Phase 8", area := 240, type := PropType.Residential,
    road_width := "Standard Street (30-40ft)", year_built := 2025, bedrooms := 3,
    quality := "B (Standard)", is_corner := true, is_park := true,
    is_west_open := true }

/-- A concrete commercial request. -/
def commercialA : ValuationRequest :=
  { location := "Clifton Block 2", area := 500, type := PropType.Commercial,
    road_width := "Main Boulevard (100ft+)", year_built := 1995, bedrooms := 4,
    quality := "A+ (Luxury)", is_corner := true, is_park := false,
    is_west_open := true }

/-- The same commercial request with different bedrooms, quality tier and
construction year. -/
def commercialB : ValuationRequest :=
  { location := "Clifton Block 2", area := 500, type := PropType.Commercial,
    road_width := "Main Boulevard (100ft+)", year_built := 2024, bedrooms := 11,
    quality := "C (Basic)", is_corner := true, is_park := false,
    is_west_open := true }

end PropData

namespace PropData

open PropType

/-- Evaluating the depreciation factor at a known clamped age. -/
theorem depreciation_factor_of_age (current construction_year a : ℤ)
    (ha : ageUsed current construction_year = a) :
    calculate_depreciation_factor current construction_year =
      (if a ≤ 0 then 1.10 else if a ≤ 5 then 1.00 else if a ≤ 10 then 0.85
       else if a ≤ 20 then 0.70 else 0.55) := by
  unfold calculate_depreciation_factor
  rw [ha]

/-- A construction year equal to the current year gives factor 1.10. -/
theorem depreciation_factor_current_year (current : ℤ) :
    calculate_depreciation_factor current current = 1.10 := by
  rw [depreciation_factor_of_age current current 0 (by unfold ageUsed; omega)]
  norm_num

/-- C3: The depreciation factor is a step function of the clamped age
`max 0 (current - construction_year)`: age 0 ↦ 1.10, age 5 ↦ 1.00,
age 6 ↦ 0.85, age 10 ↦ 0.85, age 11 ↦ 0.70, age 20 ↦ 0.70, age 21 ↦ 0.55,
and the age used is never negative, whatever the construction year (future
years included). -/
theorem C3_depreciation_step_boundaries (current : ℤ) :
    calculate_depreciation_factor current current = 1.10 ∧
    calculate_depreciation_factor current (current - 5) = 1.00 ∧
    calculate_depreciation_factor current (current - 6) = 0.85 ∧
    calculate_depreciation_factor current (current - 10) = 0.85 ∧
    calculate_depreciation_factor current (current - 11) = 0.70 ∧
    calculate_depreciation_factor current (current - 20) = 0.70 ∧
    calculate_depreciation_factor current (current - 21) = 0.55 ∧
    ∀ construction_year : ℤ, 0 ≤ ageUsed current construction_year := by
  refine ⟨?_, ?_, ?_, ?_, ?_, ?_, ?_, fun y => by unfold ageUsed; exact le_max_left 0 _⟩
  · rw [depreciation_factor_of_age current current 0 (by unfold ageUsed; omega)]; norm_num
  · rw [depreciation_factor_of_age current _ 5 (by unfold ageUsed; omega)]; norm_num
  · rw [depreciation_factor_of_age current _ 6 (by unfold ageUsed; omega)]; norm_num
  · rw [depreciation_factor_of_age current _ 10 (by unfold ageUsed; omega)]; norm_num
  · rw [depreciation_factor_of_age current _ 11 (by unfold ageUsed; omega)]; norm_num
  · rw [depreciation_factor_of_age current _ 20 (by unfold ageUsed; omega)]; norm_num
  · rw [depreciation_factor_of_age current _ 21 (by unfold ageUsed; omega)]; norm_num

/-- C6: The spec's worked example: for the fixed residential request
(DHA Phase 8, 240 sq yd, standard street, 3 bedrooms, standard quality,
built this year, no flags) the engine yields land 45,600,000, structure
3,960,000 and pre-jitter subtotal 49,560,000; the same request as
Commercial yields structure 0, land 45,600,000 and post-uplift subtotal
72,960,000. -/
theorem C6_worked_example (current : ℤ) (variance : ℚ) :
    (calculate_estimate current (exampleResidential current) variance).breakdown.land
        = 45600000 ∧
    (calculate_estimate current
        (exampleResidential current) variance).breakdown.structure_value = 3960000 ∧
    (calculate_estimate current
        (exampleResidential current) variance).breakdown.pre_variance = 49560000 ∧
    (calculate_estimate current { exampleResidential current with type := Commercial }
        variance).breakdown.structure_value = 0 ∧
    (calculate_estimate current { exampleResidential current with type := Commercial }
        variance).breakdown.land = 45600000 ∧
    (calculate_estimate current { exampleResidential current with type := Commercial }
        variance).breakdown.pre_variance = 72960000 := by
  have h1 : List.lookup "DHA Phase 8" BASE_RATES = some 190000 := rfl
  have h2 : List.lookup "Standard Street (30-40ft)" ROAD_WIDTH_FACTORS = some 1.00 := rfl
  have h3 : List.lookup "B (Standard)" QUALITY_MULTIPLIERS = some 1.00 := rfl
  have h4 : calculate_depreciation_factor current current = 1.10 :=
    depreciation_factor_current_year current
  refine ⟨?_, ?_, ?_, ?_, ?_, ?_⟩ <;>
    · simp [calculate_estimate, h1, h2, h3, h4, exampleResidential]
      norm_num [ROOM_PREMIUM, COMMERCIAL_MULTIPLIER]

/-- C1: Base-rate lookup never fails: a location present in the rate table
gets the table's rate (never the default), an absent location gets the fixed
default 50,000, and an unknown road-width label or quality tier resolves to
the neutral multiplier 1.0 instead of raising an error. -/
theorem C1_lookup_defaults (current : ℤ) (params : ValuationRequest) (variance : ℚ) :
    (∀ r : ℚ, List.lookup params.location BASE_RATES = some r →
      (calculate_estimate current params variance).breakdown.base_rate = r) ∧
    (List.lookup params.location BASE_RATES = none →
      (calculate_estimate current params variance).breakdown.base_rate = 50000) ∧
    (List.lookup params.road_width ROAD_WIDTH_FACTORS = none →
      (calculate_estimate current params variance).breakdown.land =
        (calculate_estimate current params variance).breakdown.base_rate * 1.0 *
          (params.area : ℚ)) ∧
    (params.type = Residential →
      List.lookup params.quality QUALITY_MULTIPLIERS = none →
      (calculate_estimate current params variance).breakdown.structure_value =
        (params.bedrooms : ℚ) * ROOM_PREMIUM * 1.0 *
          calculate_depreciation_factor current params.year_built) := by
  refine ⟨?_, ?_, ?_, ?_⟩
  · intro r hr
    simp [calculate_estimate, hr]
  · intro hr
    simp [calculate_estimate, hr]
  · intro hr
    simp [calculate_estimate, hr]
  · intro ht hq
    simp [calculate_estimate, ht, hq]

/-- Witness for C1: for a request whose location, road width and quality
are all unknown, the engine uses 50,000 and neutral multipliers; for a known
location (DHA Phase 8) it uses the table rate 190,000. -/
theorem C1_lookup_defaults_witness :
    (calculate_estimate 2025 unknownRequest 1).breakdown.base_rate = 50000 ∧
    (calculate_estimate 2025 unknownRequest 1).breakdown.land =
      (calculate_estimate 2025 unknownRequest 1).breakdown.base_rate * 1.0 *
        (unknownRequest.area : ℚ) ∧
    (calculate_estimate 2025 unknownRequest 1).breakdown.structure_value =
      (unknownRequest.bedrooms : ℚ) * ROOM_PREMIUM * 1.0 *
        calculate_depreciation_factor 2025 unknownRequest.year_built ∧
    (calculate_estimate 2025 (exampleResidential 2025) 1).breakdown.base_rate = 190000 := by
  refine ⟨?_, ?_, ?_, ?_⟩
  · exact (C1_lookup_defaults 2025 unknownRequest 1).2.1 rfl
  · exact (C1_lookup_defaults 2025 unknownRequest 1).2.2.1 rfl
  · exact (C1_lookup_defaults 2025 unknownRequest 1).2.2.2 rfl rfl
  · exact (C1_lookup_defaults 2025 (exampleResidential 2025) 1).1 190000 rfl

/-- C2: A commercial request always has structure value 0 and its
pre-jitter subtotal is (land + features) × 1.60; a residential subtotal is
land + structure + features, with no uplift applied. -/
theorem C2_commercial_uplift (current : ℤ) (params : ValuationRequest) (variance : ℚ) :
    (params.type = Commercial →
      (calculate_estimate current params variance).breakdown.structure_value = 0 ∧
      (calculate_estimate current params variance).breakdown.pre_variance =
        ((calculate_estimate current params variance).breakdown.land +
          (calculate_estimate current params variance).breakdown.features) * 1.60) ∧
    (params.type = Residential →
      (calculate_estimate current params variance).breakdown.pre_variance =
        (calculate_estimate current params variance).breakdown.land +
          (calculate_estimate current params variance).breakdown.structure_value +
          (calculate_estimate current params variance).breakdown.features) := by
  constructor
  · intro ht
    constructor
    · simp [calculate_estimate, ht]
      norm_num
    · simp [calculate_estimate, ht, COMMERCIAL_MULTIPLIER]
      norm_num
  · intro ht
    simp [calculate_estimate, ht]

/-- Witness for C2 at a concrete commercial and a concrete residential
request. -/
theorem C2_commercial_uplift_witness :
    (calculate_estimate 2025 commercialA 1).breakdown.structure_value = 0 ∧
    (calculate_estimate 2025 commercialA 1).breakdown.pre_variance =
      ((calculate_estimate 2025 commercialA 1).breakdown.land +
        (calculate_estimate 2025 commercialA 1).breakdown.features) * 1.60 ∧
    (calculate_estimate 2025 (exampleResidential 2025) 1).breakdown.pre_variance =
      (calculate_estimate 2025 (exampleResidential 2025) 1).breakdown.land +
        (calculate_estimate 2025 (exampleResidential 2025) 1).breakdown.structure_value +
        (calculate_estimate 2025 (exampleResidential 2025) 1).breakdown.features :=
  ⟨((C2_commercial_uplift 2025 commercialA 1).1 rfl).1,
   ((C2_commercial_uplift 2025 commercialA 1).1 rfl).2,
   (C2_commercial_uplift 2025 (exampleResidential 2025) 1).2 rfl⟩

/-- C4: The feature premium total is the sum of independent per-flag
premiums proportional to land value (15% corner, 10% park-facing, 5%
west-open), and with all three flags set it is exactly 30% of land value. -/
theorem C4_feature_premiums (current : ℤ) (params : ValuationRequest) (variance : ℚ) :
    (calculate_estimate current params variance).breakdown.features =
      ((if params.is_corner then (0.15 : ℚ) else 0) +
        (if params.is_park then (0.10 : ℚ) else 0) +
        (if params.is_west_open then (0.05 : ℚ) else 0)) *
        (calculate_estimate current params variance).breakdown.land ∧
    (params.is_corner = true → params.is_park = true → params.is_west_open = true →
      (calculate_estimate current params variance).breakdown.features =
        0.30 * (calculate_estimate current params variance).breakdown.land) := by
  constructor
  · simp only [calculate_estimate]
    cases params.is_corner <;> cases params.is_park <;> cases params.is_west_open <;>
      simp <;> ring
  · intro h1 h2 h3
    simp [calculate_estimate, h1, h2, h3]
    ring_nf

/-- Witness for C4: a request with all three feature flags enabled gets a
feature total of exactly 30% of its land value. -/
theorem C4_feature_premiums_witness :
    (calculate_estimate 2025 allFlagsRequest 1).breakdown.features =
      0.30 * (calculate_estimate 2025 allFlagsRequest 1).breakdown.land :=
  (C4_feature_premiums 2025 allFlagsRequest 1).2 rfl rfl rfl

/-- C8: The breakdown returned by `calculate_estimate` is a deterministic
function of the request alone: two calls with different jitter draws return
identical breakdowns, and only the final price (subtotal × jitter) differs. -/
theorem C8_breakdown_deterministic (current : ℤ) (params : ValuationRequest)
    (v1 v2 : ℚ) :
    (calculate_estimate current params v1).breakdown =
      (calculate_estimate current params v2).breakdown ∧
    (calculate_estimate current params v1).price =
      (calculate_estimate current params v1).breakdown.pre_variance * v1 ∧
    (calculate_estimate current params v2).price =
      (calculate_estimate current params v2).breakdown.pre_variance * v2 :=
  ⟨rfl, rfl, rfl⟩

/-- C9: `format_pk` returns the crore magnitude amount ÷ 10,000,000 and
the lakh magnitude amount ÷ 100,000 as exact divisions (multiplying back
recovers the amount, so no rounding occurs), together with the "PKR"
currency string for the amount. -/
theorem C9_format_pk_divisions (amount : ℚ) :
    (format_pk amount).1 = amount / 10000000 ∧
    (format_pk amount).1 * 10000000 = amount ∧
    (format_pk amount).2.1 = amount / 100000 ∧
    (format_pk amount).2.1 * 100000 = amount ∧
    (format_pk amount).2.2 = "PKR " ++ commaSepInt (roundHalfEven amount) := by
  refine ⟨rfl, ?_, rfl, ?_, rfl⟩
  · show amount / 10000000 * 10000000 = amount
    exact div_mul_cancel₀ amount (by norm_num)
  · show amount / 100000 * 100000 = amount
    exact div_mul_cancel₀ amount (by norm_num)

/-- C10: Two commercial requests agreeing on location, area, road width
and feature flags produce identical breakdowns and identical pre-jitter
totals, whatever their bedrooms, quality tier or construction year; every
commercial breakdown has structure value 0 and depreciation factor 1. -/
theorem C10_commercial_ignores_structure_inputs (current : ℤ)
    (p q : ValuationRequest) (v1 v2 : ℚ)
    (hp : p.type = Commercial) (hq : q.type = Commercial)
    (hloc : p.location = q.location) (harea : p.area = q.area)
    (hroad : p.road_width = q.road_width)
    (hcorner : p.is_corner = q.is_corner) (hpark : p.is_park = q.is_park)
    (hwest : p.is_west_open = q.is_west_open) :
    (calculate_estimate current p v1).breakdown =
      (calculate_estimate current q v2).breakdown ∧
    (calculate_estimate current p v1).breakdown.structure_value = 0 ∧
    (calculate_estimate current p v1).breakdown.depreciation_factor = 1 ∧
    (calculate_estimate current p v1).breakdown.pre_variance =
      (calculate_estimate current q v2).breakdown.pre_variance := by
  refine ⟨?_, ?_, ?_, ?_⟩ <;>
    (simp [calculate_estimate, hp, hq, hloc, harea, hroad, hcorner, hpark, hwest] <;>
      norm_num)

/-- Witness for C10: two concrete commercial requests that differ in
bedrooms (4 vs 11), quality (A+ vs C) and construction year (1995 vs 2024)
share one breakdown with structure 0 and depreciation factor 1. -/
theorem C10_commercial_ignores_structure_inputs_witness :
    (calculate_estimate 2025 commercialA 1).breakdown =
      (calculate_estimate 2025 commercialB 2).breakdown ∧
    (calculate_estimate 2025 commercialA 1).breakdown.structure_value = 0 ∧
    (calculate_estimate 2025 commercialA 1).breakdown.depreciation_factor = 1 := by
  obtain ⟨h1, h2, h3, h4⟩ :=
    C10_commercial_ignores_structure_inputs 2025 commercialA commercialB 1 2
      rfl rfl rfl rfl rfl rfl rfl rfl
  exact ⟨h1, h2, h3⟩

/-- A defaulted lookup in a table of non-negative values with a non-negative
default is non-negative. -/
theorem lookup_getD_nonneg (l : List (String × ℚ)) (h : ∀ p ∈ l, 0 ≤ p.2)
    (k : String) (d : ℚ) (hd : 0 ≤ d) : 0 ≤ (List.lookup k l).getD d := by
  induction l with
  | nil => simpa using hd
  | cons a l ih =>
    obtain ⟨k', v⟩ := a
    cases hkk : (k == k') with
    | true =>
      simp only [List.lookup, hkk, Option.getD_some]
      exact h (k', v) (List.mem_cons_self _ _)
    | false =>
      simp only [List.lookup, hkk]
      exact ih fun p hp => h p (List.mem_cons_of_mem _ hp)

/-- All base rates in the table are non-negative. -/
theorem BASE_RATES_nonneg : ∀ p ∈ BASE_RATES, (0 : ℚ) ≤ p.2 := by
  intro p hp
  fin_cases hp <;> norm_num

/-- All road-width factors are non-negative. -/
theorem ROAD_WIDTH_FACTORS_nonneg : ∀ p ∈ ROAD_WIDTH_FACTORS, (0 : ℚ) ≤ p.2 := by
  intro p hp
  fin_cases hp <;> norm_num

/-- All quality multipliers are non-negative. -/
theorem QUALITY_MULTIPLIERS_nonneg : ∀ p ∈ QUALITY_MULTIPLIERS, (0 : ℚ) ≤ p.2 := by
  intro p hp
  fin_cases hp <;> norm_num

/-- The depreciation factor is always non-negative. -/
theorem depreciation_factor_nonneg (current construction_year : ℤ) :
    0 ≤ calculate_depreciation_factor current construction_year := by
  rw [depreciation_factor_of_age current construction_year
    (ageUsed current construction_year) rfl]
  split_ifs <;> norm_num

/-- The land value reported in the breakdown, read off the definition. -/
theorem estimate_land_eq (current : ℤ) (params : ValuationRequest) (variance : ℚ) :
    (calculate_estimate current params variance).breakdown.land =
      (List.lookup params.location BASE_RATES).getD 50000 *
        (List.lookup params.road_width ROAD_WIDTH_FACTORS).getD 1.0 *
        (params.area : ℚ) := rfl

/-- The feature total reported in the breakdown, read off the definition. -/
theorem estimate_features_eq (current : ℤ) (params : ValuationRequest) (variance : ℚ) :
    (calculate_estimate current params variance).breakdown.features =
      (if params.is_corner
        then (calculate_estimate current params variance).breakdown.land * 0.15 else 0) +
      (if params.is_park
        then (calculate_estimate current params variance).breakdown.land * 0.10 else 0) +
      (if params.is_west_open
        then (calculate_estimate current params variance).breakdown.land * 0.05 else 0)
    := rfl

/-- The final price is the pre-jitter subtotal times the jitter draw. -/
theorem estimate_price_eq (current : ℤ) (params : ValuationRequest) (variance : ℚ) :
    (calculate_estimate current params variance).price =
      (calculate_estimate current params variance).breakdown.pre_variance * variance := rfl

/-- The land value is non-negative. -/
theorem estimate_land_nonneg (current : ℤ) (params : ValuationRequest) (variance : ℚ) :
    0 ≤ (calculate_estimate current params variance).breakdown.land := by
  rw [estimate_land_eq]
  exact mul_nonneg
    (mul_nonneg (lookup_getD_nonneg _ BASE_RATES_nonneg _ _ (by norm_num))
      (lookup_getD_nonneg _ ROAD_WIDTH_FACTORS_nonneg _ _ (by norm_num)))
    (Nat.cast_nonneg _)

/-- The structure value is non-negative. -/
theorem estimate_structure_nonneg (current : ℤ) (params : ValuationRequest)
    (variance : ℚ) :
    0 ≤ (calculate_estimate current params variance).breakdown.structure_value := by
  rcases htype : params.type with _ | _
  · have heq : (calculate_estimate current params variance).breakdown.structure_value =
        (params.bedrooms : ℚ) * ROOM_PREMIUM *
          (List.lookup params.quality QUALITY_MULTIPLIERS).getD 1.0 *
          calculate_depreciation_factor current params.year_built := by
      simp [calculate_estimate, htype]
    rw [heq]
    exact mul_nonneg
      (mul_nonneg (mul_nonneg (Nat.cast_nonneg _) (by norm_num [ROOM_PREMIUM]))
        (lookup_getD_nonneg _ QUALITY_MULTIPLIERS_nonneg _ _ (by norm_num)))
      (depreciation_factor_nonneg _ _)
  · have heq : (calculate_estimate current params variance).breakdown.structure_value
        = 0 := by
      simp [calculate_estimate, htype]
      norm_num
    rw [heq]

/-- The feature total is non-negative. -/
theorem estimate_features_nonneg (current : ℤ) (params : ValuationRequest)
    (variance : ℚ) :
    0 ≤ (calculate_estimate current params variance).breakdown.features := by
  rw [estimate_features_eq]
  have hland := estimate_land_nonneg current params variance
  refine add_nonneg (add_nonneg ?_ ?_) ?_ <;> split
  · exact mul_nonneg hland (by norm_num)
  · exact le_rfl
  · exact mul_nonneg hland (by norm_num)
  · exact le_rfl
  · exact mul_nonneg hland (by norm_num)
  · exact le_rfl

/-- The pre-jitter subtotal is non-negative. -/
theorem estimate_pre_variance_nonneg (current : ℤ) (params : ValuationRequest)
    (variance : ℚ) :
    0 ≤ (calculate_estimate current params variance).breakdown.pre_variance := by
  have hland := estimate_land_nonneg current params variance
  have hstruct := estimate_structure_nonneg current params variance
  have hfeat := estimate_features_nonneg current params variance
  have hsub : 0 ≤ (calculate_estimate current params variance).breakdown.land +
      (calculate_estimate current params variance).breakdown.structure_value +
      (calculate_estimate current params variance).breakdown.features :=
    add_nonneg (add_nonneg hland hstruct) hfeat
  have heq : (calculate_estimate current params variance).breakdown.pre_variance =
      if params.type = Commercial then
        ((calculate_estimate current params variance).breakdown.land +
          (calculate_estimate current params variance).breakdown.structure_value +
          (calculate_estimate current params variance).breakdown.features) *
          COMMERCIAL_MULTIPLIER
      else
        (calculate_estimate current params variance).breakdown.land +
          (calculate_estimate current params variance).breakdown.structure_value +
          (calculate_estimate current params variance).breakdown.features := rfl
  rw [heq]
  split
  · exact mul_nonneg hsub (by norm_num [COMMERCIAL_MULTIPLIER])
  · exact hsub

/-- C5: For any jitter draw in [0.97, 1.03] the final price equals the
pre-jitter subtotal times the draw, and therefore always lies within ±3% of
the pre-jitter subtotal reported in the breakdown. -/
theorem C5_price_within_three_percent (current : ℤ) (params : ValuationRequest)
    (variance : ℚ) (hlo : 0.97 ≤ variance) (hhi : variance ≤ 1.03) :
    (calculate_estimate current params variance).price =
      (calculate_estimate current params variance).breakdown.pre_variance * variance ∧
    0.97 * (calculate_estimate current params variance).breakdown.pre_variance ≤
      (calculate_estimate current params variance).price ∧
    (calculate_estimate current params variance).price ≤
      1.03 * (calculate_estimate current params variance).breakdown.pre_variance := by
  have h0 := estimate_pre_variance_nonneg current params variance
  refine ⟨rfl, ?_, ?_⟩
  · rw [estimate_price_eq]
    nlinarith [mul_le_mul_of_nonneg_left hlo h0]
  · rw [estimate_price_eq]
    nlinarith [mul_le_mul_of_nonneg_left hhi h0]

/-- Witness for C5 at the worked-example request with jitter 1. -/
theorem C5_price_within_three_percent_witness :
    (calculate_estimate 2025 (exampleResidential 2025) 1).price =
      (calculate_estimate 2025 (exampleResidential 2025) 1).breakdown.pre_variance * 1 ∧
    0.97 * (calculate_estimate 2025 (exampleResidential 2025) 1).breakdown.pre_variance ≤
      (calculate_estimate 2025 (exampleResidential 2025) 1).price ∧
    (calculate_estimate 2025 (exampleResidential 2025) 1).price ≤
      1.03 * (calculate_estimate 2025 (exampleResidential 2025) 1).breakdown.pre_variance :=
  C5_price_within_three_percent 2025 (exampleResidential 2025) 1
    (by norm_num) (by norm_num)

/-- Consecutive month-end dates are strictly increasing in calendar order. -/
theorem monthEnd_lt_next (k : ℕ) :
    dateLt (monthEndOfIndex k) (monthEndOfIndex (k + 1)) := by
  simp only [dateLt, monthEndOfIndex]
  omega

/-- The forecast dates are strictly increasing. -/
theorem forecastDates_chain (today : SimpleDate) (months : ℕ) :
    List.Chain' dateLt (forecastDates today months) := by
  unfold forecastDates
  rw [List.chain'_map]
  cases months with
  | zero => simp
  | succ m =>
    rw [List.chain'_range_succ]
    intro i hi
    rw [show monthIndex today + (i + 1) = (monthIndex today + i) + 1 by omega]
    exact monthEnd_lt_next (monthIndex today + i)

/-- C7 counterexample: The claim fails as stated: with today = 2026-10-12
the first forecast date is 2026-10-31 (the end of the current month under
pandas month-end frequency), not today; and with monthCount = 1 the single
trend value is startPrice, not startPrice × 1.12. -/
theorem C7_forecast_counterexample :
    ((generate_forecast ⟨2026, 10, 12⟩ 100 3 (fun _ => 0)).map Prod.fst).head? =
      some ⟨2026, 10, 31⟩ ∧
    (⟨2026, 10, 31⟩ : SimpleDate) ≠ ⟨2026, 10, 12⟩ ∧
    linTerm 100 (100 * 1.12) 1 0 = 100 ∧
    (100 : ℚ) ≠ 100 * 1.12 := by
  refine ⟨rfl, by decide, by norm_num [linTerm], by norm_num⟩

/-- C7 amended: For every positive start price and month count the
forecast has exactly `months` points; its dates are the successive month-end
dates starting with the end of the month containing today, strictly
increasing; the values are the `np.linspace` trend from startPrice to
startPrice × 1.12 plus the per-point noise (whose standard-deviation
parameter is 1.5% of startPrice); the first trend value is startPrice and,
when months ≥ 2, the last trend value is startPrice × 1.12. -/
theorem C7_forecast_amended (today : SimpleDate) (start_price : ℚ) (months : ℕ)
    (noise : ℕ → ℚ) (hs : 0 < start_price) (hm : 1 ≤ months) :
    (generate_forecast today start_price months noise).length = months ∧
    (generate_forecast today start_price months noise).map Prod.fst =
      forecastDates today months ∧
    (forecastDates today months).head? = some (monthEndOfIndex (monthIndex today)) ∧
    List.Chain' dateLt (forecastDates today months) ∧
    (generate_forecast today start_price months noise).map Prod.snd =
      (List.range months).map
        (fun i => linTerm start_price (start_price * 1.12) months i + noise i) ∧
    linTerm start_price (start_price * 1.12) months 0 = start_price ∧
    (2 ≤ months →
      linTerm start_price (start_price * 1.12) months (months - 1) =
        start_price * 1.12) ∧
    forecastNoiseStd start_price = start_price * (3 / 200) := by
  have hvals : (List.zipWith (· + ·)
      (linspace start_price (start_price * 1.12) months)
      ((List.range months).map noise)) =
      (List.range months).map
        (fun i => linTerm start_price (start_price * 1.12) months i + noise i) := by
    unfold linspace
    rw [List.zipWith_map, List.zipWith_same]
  refine ⟨?_, ?_, ?_, forecastDates_chain today months, ?_, ?_, ?_, ?_⟩
  · unfold generate_forecast
    simp [hvals, forecastDates]
  · simp only [generate_forecast]
    rw [hvals]
    exact List.map_fst_zip _ _ (by simp [forecastDates])
  · obtain ⟨m, rfl⟩ : ∃ m, months = m + 1 := ⟨months - 1, by omega⟩
    simp [forecastDates, List.range_succ_eq_map]
  · simp only [generate_forecast]
    rw [hvals]
    exact List.map_snd_zip _ _ (by simp [forecastDates])
  · simp [linTerm]
  · intro h2
    unfold linTerm
    rw [if_neg (by omega)]
    have hcast : ((months - 1 : ℕ) : ℚ) = (months : ℚ) - 1 := by
      rw [Nat.cast_sub hm, Nat.cast_one]
    have hpos : 0 < (months : ℚ) - 1 := by
      have : (2 : ℚ) ≤ (months : ℚ) := by exact_mod_cast h2
      linarith
    rw [hcast]
    field_simp
  · norm_num [forecastNoiseStd]

/-- Witness for the amended C7 at today = 2026-10-12, start price 100,
two months, zero noise. -/
theorem C7_forecast_amended_witness :
    (generate_forecast ⟨2026, 10, 12⟩ 100 2 (fun _ => 0)).length = 2 ∧
    (forecastDates ⟨2026, 10, 12⟩ 2).head? =
      some (monthEndOfIndex (monthIndex ⟨2026, 10, 12⟩)) ∧
    linTerm 100 (100 * 1.12) 2 0 = 100 ∧
    linTerm 100 (100 * 1.12) 2 (2 - 1) = 100 * 1.12 ∧
    forecastNoiseStd 100 = 100 * (3 / 200) := by
  obtain ⟨h1, h2, h3, h4, h5, h6, h7, h8⟩ :=
    C7_forecast_amended ⟨2026, 10, 12⟩ 100 2 (fun _ => 0) (by norm_num) (by norm_num)
  exact ⟨h1, h3, h6, h7 (by norm_num), h8⟩

end PropData
